import Mathlib

/-
A shallow embedding, in Lean 4, of the serialization layer of the
`sentry` repository: the group serializer hierarchy
(`src/sentry/api/serializers/models/group.py`) and the plugin field
serializer (`src/sentry/api/serializers/models/plugin.py`), together
with theorems about the serialization logic.

Python dictionaries are embedded as association lists `List (String × JVal)`
with Python's assignment semantics (`dset`: overwrite in place, append when
absent), JSON-ready values as the inductive `JVal`, and Python truthiness of
optional integers / strings as `truthyN` / `truthyS`.
-/

/-- A JSON-ready value, the codomain of the serializers. -/
inductive JVal where
  | null : JVal
  | bool : Bool → JVal
  | num : Int → JVal
  | str : String → JVal
  | arr : List JVal → JVal
  | obj : List (String × JVal) → JVal

/-- Lookup in an embedded Python dict (`d[k]` / `d.get(k)`). -/
def dget : List (String × JVal) → String → Option JVal
  | [], _ => none
  | p :: rest, k => if p.1 = k then some p.2 else dget rest k

/-- Assignment into an embedded Python dict (`d[k] = v`): overwrite the
existing entry in place, or append a new entry at the end. -/
def dset : List (String × JVal) → String → JVal → List (String × JVal)
  | [], k, v => [(k, v)]
  | p :: rest, k, v => if p.1 = k then (k, v) :: rest else p :: dset rest k v

/-- Deletion from an embedded Python dict (`del d[k]`). -/
def ddel (d : List (String × JVal)) (k : String) : List (String × JVal) :=
  d.filter (fun p => p.1 ≠ k)

theorem dget_dset (d : List (String × JVal)) (k k' : String) (v : JVal) :
    dget (dset d k v) k' = if k' = k then some v else dget d k' := by
  induction d with
  | nil =>
    rcases eq_or_ne k' k with h | h
    · subst h; simp [dset, dget]
    · simp [dset, dget, h, Ne.symm h]
  | cons p rest ih =>
    rcases eq_or_ne p.1 k with hp | hp
    · rcases eq_or_ne k' k with h | h
      · subst h; simp [dset, dget, hp]
      · have hpk' : ¬ p.1 = k' := by rw [hp]; exact Ne.symm h
        simp [dset, dget, hp, h, Ne.symm h, hpk']
    · rcases eq_or_ne p.1 k' with hq | hq
      · have hk : ¬ k' = k := fun hh => hp (hq.trans hh)
        simp [dset, dget, hp, hq, hk]
      · simp [dset, dget, hp, hq, ih]

theorem dget_ddel (d : List (String × JVal)) (k k' : String) :
    dget (ddel d k) k' = if k' = k then none else dget d k' := by
  induction d with
  | nil => simp [ddel, dget]
  | cons p rest ih =>
    rcases eq_or_ne p.1 k with hp | hp
    · have hfilter : ddel (p :: rest) k = ddel rest k := by
        simp [ddel, List.filter_cons, hp]
      rcases eq_or_ne k' k with h | h
      · subst h; simp [hfilter, ih]
      · have hpk' : ¬ p.1 = k' := by rw [hp]; exact Ne.symm h
        simp [hfilter, ih, h, dget, hpk']
    · have hfilter : ddel (p :: rest) k = p :: ddel rest k := by
        simp [ddel, List.filter_cons, hp]
      rcases eq_or_ne p.1 k' with hq | hq
      · have hk : ¬ k' = k := fun hh => hp (hq.trans hh)
        simp [hfilter, dget, hq, hk]
      · simp [hfilter, dget, hq, ih]

/-- Python truthiness of an optional integer (`None` and `0` are falsy). -/
def truthyN : Option Nat → Bool
  | some n => n != 0
  | none => false

/-- Python truthiness of an optional string (`None` and `""` are falsy). -/
def truthyS : Option String → Bool
  | some s => s != ""
  | none => false

/-- An optional string as a JSON value (`None` becomes `null`). -/
def optStr : Option String → JVal
  | some s => JVal.str s
  | none => JVal.null

/-- An optional integer as a JSON value (`None` becomes `null`). -/
def optNum : Option Nat → JVal
  | some n => JVal.num n
  | none => JVal.null

/-- An optional already-serialized value (`None` becomes `null`). -/
def optJ : Option JVal → JVal
  | some v => v
  | none => JVal.null

/-
Plugin field serialization, embedding `serialize_field` of
`src/sentry/api/serializers/models/plugin.py` (lines 67-86). A field
descriptor is a Python dict; its optional keys become `Option` fields
(`none` = key absent). `has_saved_value` holds `bool(field.get(...))`
already collapsed to a boolean; `prefix_val` stands for the descriptor's
`prefix` key (that word is reserved in Lean).
-/

/-- A plugin config field descriptor, the input dict of `serialize_field`. -/
structure PluginField where
  name : String
  label : Option String
  type : Option String
  required : Option Bool
  help : Option String
  placeholder : Option String
  choices : Option JVal
  readonly : Option Bool
  default : Option JVal
  has_saved_value : Option Bool
  prefix_val : Option String

/-- Python's `str.title()` on ASCII text: the first letter of every
alphabetic run is uppercased, the rest lowercased. -/
def pyTitleAux : Bool → List Char → List Char
  | _, [] => []
  | prevAlpha, c :: cs =>
    (if c.isAlpha then (if prevAlpha then c.toLower else c.toUpper) else c) ::
      pyTitleAux c.isAlpha cs

/-- Python's `str.title()`. -/
def pyTitle (s : String) : String := String.mk (pyTitleAux false s.data)

/-- The `label` entry: the descriptor's truthy `label`, else the name
title-cased with underscores turned to spaces
(`field.get('label') or field['name'].title().replace('_', ' ')`). -/
def labelVal (f : PluginField) : String :=
  if truthyS f.label then f.label.getD "" else (pyTitle f.name).replace "_" " "

/-- Embedding of `serialize_field(project, plugin, field)`. `get_option`
stands for the external stored-option lookup
`plugin.get_option(field['name'], project)` (a collaborator outside this
repository), already scoped to the plugin and project. -/
def serialize_field (get_option : String → JVal) (f : PluginField) :
    List (String × JVal) :=
  let data : List (String × JVal) :=
    [("name", JVal.str f.name),
     ("label", JVal.str (labelVal f)),
     ("type", JVal.str (f.type.getD "text")),
     ("required", JVal.bool (f.required.getD true)),
     ("help", if truthyS f.help then JVal.str (f.help.getD "") else JVal.null),
     ("placeholder",
       if truthyS f.placeholder then JVal.str (f.placeholder.getD "") else JVal.null),
     ("choices", optJ f.choices),
     ("readonly", JVal.bool (f.readonly.getD false)),
     ("defaultValue", optJ f.default),
     ("value", JVal.null)]
  if f.type = some "secret" then
    dset (dset data "has_saved_value" (JVal.bool (f.has_saved_value.getD false)))
      "prefix" (JVal.str (f.prefix_val.getD ""))
  else
    dset data "value" (get_option f.name)

/-
Group serialization, embedding `GroupSerializer` of
`src/sentry/api/serializers/models/group.py`. Database rows referenced by
the serializer (groups, subscriptions, user options, snoozes, users)
become Lean structures; timestamps become natural numbers. Methods of
model classes that live outside this repository (`GroupSnooze.is_valid`,
`Group.is_over_resolve_age`, `user.is_authenticated()`, `user.get_orgs()`)
are carried as fields holding the result of the external call. The
namespace `Sentry` keeps these model names apart from Mathlib's.
-/

namespace Sentry

/-- The stored status enum of a group (`GroupStatus` in `sentry.models`). -/
inductive GroupStatus where
  | unresolved : GroupStatus
  | resolved : GroupStatus
  | ignored : GroupStatus
  | pending_deletion : GroupStatus
  | deletion_in_progress : GroupStatus
  | pending_merge : GroupStatus
deriving DecidableEq, Repr

/-- The subscription reason enum (`GroupSubscriptionReason`). -/
inductive GroupSubscriptionReason where
  | unknown : GroupSubscriptionReason
  | comment : GroupSubscriptionReason
  | assigned : GroupSubscriptionReason
  | bookmark : GroupSubscriptionReason
  | status_change : GroupSubscriptionReason
  | mentioned : GroupSubscriptionReason
deriving DecidableEq, Repr

/-- The resolution type enum (`GroupResolution.Type`). -/
inductive ResolutionType where
  | in_next_release : ResolutionType
  | in_release : ResolutionType
deriving DecidableEq, Repr

/-- A project row, as far as the serializer reads it. -/
structure Project where
  id : Nat
  name : String
  slug : String
deriving DecidableEq, Repr

/-- An organization row, as far as the serializer reads it. -/
structure Organization where
  id : Nat
  slug : String
deriving DecidableEq, Repr

/-- A group row together with the derived properties the serializer reads.
`is_over_resolve_age` carries the result of the external
`Group.is_over_resolve_age()` check (modelled from the spec: the group's
age exceeds its configured auto-resolve window); `event_type`,
`event_metadata` and `qualified_short_id` carry the results of the
corresponding model methods. -/
structure Group where
  id : Nat
  project : Project
  organization : Organization
  status : GroupStatus
  times_seen : Nat
  num_comments : Nat
  first_seen : Nat
  last_seen : Nat
  active_at : Option Nat
  title : String
  culprit : String
  logger : String
  level : Nat
  qualified_short_id : String
  event_type : String
  event_metadata : JVal
  is_over_resolve_age : Bool

/-- A snooze (ignore) row (`GroupSnooze`): optional thresholds, the state
snapshot taken at snooze time (`state['times_seen']`, `state['users_seen']`),
and the issuing actor. `until_ts` stands for the row's `until` column
(a keyword in Lean). `is_valid` carries the external black-box validity
check `snooze.is_valid(group=obj)` (modelled from the spec: the exact rule
lives outside this repository) as a function of the group. -/
structure GroupSnooze where
  until_ts : Option Nat
  count : Option Nat
  window : Option Nat
  user_count : Option Nat
  user_window : Option Nat
  state_times_seen : Nat
  state_users_seen : Nat
  actor_id : Option Nat
  is_valid : Group → Bool

/-- An explicit subscription row (`GroupSubscription`) for one user and
one group. -/
structure GroupSubscription where
  group_id : Nat
  user_id : Nat
  is_active : Bool
  reason : GroupSubscriptionReason
deriving DecidableEq, Repr

/-- A stored user-option row (`UserOption`): a per-user preference, keyed
by an optional project (`none` = the global/null-project scope). -/
structure UserOption where
  user_id : Nat
  project_id : Option Nat
  key : String
  value : String
deriving DecidableEq, Repr

/-- The viewing user, as far as the serializer reads it: `is_authenticated`
carries `user.is_authenticated()` and `org_ids` the ids of
`user.get_orgs()` (both external model calls). -/
structure SUser where
  id : Nat
  is_authenticated : Bool
  org_ids : List Nat
deriving DecidableEq, Repr

/-- The resolution tuple fetched per group by `get_attrs`
(`values_list('group', 'type', 'release__version', 'actor_id')` minus the
group id): (type, release version, actor id), each nullable. -/
abbrev ResTuple := Option ResolutionType × Option String × Option Nat

/-- The per-group attribute bag assembled by `GroupSerializer.get_attrs`
(lines 183-195) and consumed by `serialize`. -/
structure GroupAttrs where
  assigned_to : JVal
  is_bookmarked : Bool
  subscription : Bool × Option GroupSubscription
  has_seen : Bool
  annotations : List JVal
  user_count : Nat
  ignore_until : Option GroupSnooze
  ignore_actor : Option JVal
  resolution : Option ResTuple
  resolution_actor : Option JVal
  share_id : Option String

/-- The `all_conversations` preference value (`UserOptionValue.all_conversations`,
a constant outside this repository; only its identity matters here). -/
def UserOptionValue.all_conversations : String := "all_conversations"

/-
Embedding of `GroupSerializer._get_subscriptions` (lines 35-92). The
database is passed in explicitly: `subs` are the `GroupSubscription` rows,
`opts` the `UserOption` rows. Python's dict building (later rows win) is
rendered with `getLast?` over the matching rows.
-/

/-- The ids of the groups in the batch (`results.keys()`). -/
def gidsOf (item_list : List Group) : List Nat := item_list.map (fun g => g.id)

/-- The query `GroupSubscription.objects.filter(group__in=..., user=user)`. -/
def userSubsFor (item_list : List Group) (uid : Nat)
    (subs : List GroupSubscription) : List GroupSubscription :=
  subs.filter (fun s => s.user_id == uid && (gidsOf item_list).contains s.group_id)

/-- The explicit record deciding `results[group.id]` after the first loop:
the last fetched subscription row for the group (assignment in a loop,
later rows win), or `none` when the group has no row. -/
def explicitSub (item_list : List Group) (uid : Nat)
    (subs : List GroupSubscription) (g : Group) : Option GroupSubscription :=
  ((userSubsFor item_list uid subs).filter (fun s => s.group_id == g.id)).getLast?

/-- The ids of the projects of the still-unknown groups (`projects.keys()`). -/
def leftoverProjectIds (item_list : List Group) (uid : Nat)
    (subs : List GroupSubscription) : List Nat :=
  (item_list.filter (fun g => (explicitSub item_list uid subs g).isNone)).map
    (fun g => g.project.id)

/-- The query for the `workflow:notifications` preference rows:
`Q(project__in=projects.keys()) | Q(project__isnull=True)`, `user=user`. -/
def prefRows (item_list : List Group) (uid : Nat) (subs : List GroupSubscription)
    (opts : List UserOption) : List UserOption :=
  opts.filter (fun o => o.user_id == uid && o.key == "workflow:notifications" &&
    (match o.project_id with
     | none => true
     | some p => (leftoverProjectIds item_list uid subs).contains p))

/-- The `options` dict of the source, looked up at one project key
(later rows win, hence `getLast?`). -/
def optionsVal (rows : List UserOption) (pid : Option Nat) : Option String :=
  ((rows.filter (fun o => o.project_id == pid)).getLast?).map (fun o => o.value)

/-- The user's default preference: `options.get(None, all_conversations)`. -/
def defaultPref (rows : List UserOption) : String :=
  (optionsVal rows none).getD UserOptionValue.all_conversations

/-- The effective preference consulted for a still-unknown group:
`options.get(project.id, default)`. -/
def effectivePref (item_list : List Group) (uid : Nat) (subs : List GroupSubscription)
    (opts : List UserOption) (g : Group) : String :=
  (optionsVal (prefRows item_list uid subs opts) (some g.project.id)).getD
    (defaultPref (prefRows item_list uid subs opts))

/-- The value `_get_subscriptions` assigns to one group of the batch:
the explicit record when there is one, else the preference fallback. -/
def subscriptionFor (item_list : List Group) (uid : Nat) (subs : List GroupSubscription)
    (opts : List UserOption) (g : Group) : Bool × Option GroupSubscription :=
  match explicitSub item_list uid subs g with
  | some s => (s.is_active, some s)
  | none =>
    (effectivePref item_list uid subs opts g == UserOptionValue.all_conversations, none)

/-- Embedding of `GroupSerializer._get_subscriptions`: the mapping of group
ids to (subscribed, record-or-none) pairs. -/
def GroupSerializer._get_subscriptions (item_list : List Group) (uid : Nat)
    (subs : List GroupSubscription) (opts : List UserOption) :
    List (Nat × (Bool × Option GroupSubscription)) :=
  item_list.map (fun g => (g.id, subscriptionFor item_list uid subs opts g))

/-
Embedding of the actor-resolution fragment of `GroupSerializer.get_attrs`
(lines 133-153 and 171-181): the per-group `resolutions` and
`ignore_items` maps, the batched active-user query, and the per-item
`resolution_actor` / `ignore_actor` values.
-/

/-- A user row, as far as the actor query reads it. -/
structure DbUser where
  id : Nat
  is_active : Bool
deriving DecidableEq, Repr

/-- Modelled from the spec: the generic user serializer that
`serialize(users, user)` delegates to (outside this file's sources); only
the attached value's identity matters here. -/
def serializeUser (u : DbUser) : JVal :=
  JVal.obj [("id", JVal.str (toString u.id))]

/-- Lookup in a Python dict keyed by integers and built from query rows
(later rows win). -/
def lookupLast {α : Type} (m : List (Nat × α)) (k : Nat) : Option α :=
  ((m.filter (fun p => p.1 == k)).getLast?).map (fun p => p.2)

/-- The set `actor_ids`: resolution actor ids plus snooze actor ids
(either may be `None`). -/
def actorIds (resolutions : List (Nat × ResTuple))
    (ignore_items : List (Nat × GroupSnooze)) : List (Option Nat) :=
  resolutions.map (fun r => r.2.2.2) ++ ignore_items.map (fun p => p.2.actor_id)

/-- The query `User.objects.filter(id__in=actor_ids, is_active=True)`. -/
def activeActorUsers (resolutions : List (Nat × ResTuple))
    (ignore_items : List (Nat × GroupSnooze)) (dbUsers : List DbUser) : List DbUser :=
  dbUsers.filter (fun u =>
    (actorIds resolutions ignore_items).contains (some u.id) && u.is_active)

/-- The `actors` dict: serialized active users keyed by user id. -/
def actorsOf (resolutions : List (Nat × ResTuple))
    (ignore_items : List (Nat × GroupSnooze)) (dbUsers : List DbUser) :
    List (Nat × JVal) :=
  (activeActorUsers resolutions ignore_items dbUsers).map
    (fun u => (u.id, serializeUser u))

/-- The bag value `resolution_actor` for one item:
`actors.get(resolution[-1])` when the item has a resolution, else `None`. -/
def resolution_actor_for (resolutions : List (Nat × ResTuple))
    (ignore_items : List (Nat × GroupSnooze)) (dbUsers : List DbUser)
    (gid : Nat) : Option JVal :=
  match lookupLast resolutions gid with
  | some r => r.2.2.bind (fun a => lookupLast (actorsOf resolutions ignore_items dbUsers) a)
  | none => none

/-- The bag value `ignore_actor` for one item:
`actors.get(ignore_item.actor_id)` when the item has a snooze, else `None`. -/
def ignore_actor_for (resolutions : List (Nat × ResTuple))
    (ignore_items : List (Nat × GroupSnooze)) (dbUsers : List DbUser)
    (gid : Nat) : Option JVal :=
  match lookupLast ignore_items gid with
  | some it => it.actor_id.bind (fun a => lookupLast (actorsOf resolutions ignore_items dbUsers) a)
  | none => none

/-
Embedding of `GroupSerializer.serialize` (lines 198-294), decomposed along
the source's control flow: the snooze check (lines 201-226), the
auto-resolve check (lines 227-229), the label / resolution-details chain
(lines 230-246), the permalink (lines 248-255), and the output record
(lines 260-294).
-/

/-- The `ignoreCount` detail (lines 207-210): the remaining delta
`snooze.count - (obj.times_seen - snooze.state['times_seen'])` when a
count is set without a window (Python truthiness), else the stored count
echoed. Python subtraction is signed, hence `Int`. -/
def ignoreCountVal (times_seen : Nat) (sn : GroupSnooze) : JVal :=
  if truthyN sn.count && !truthyN sn.window then
    JVal.num ((sn.count.getD 0 : Int) - ((times_seen : Int) - (sn.state_times_seen : Int)))
  else optNum sn.count

/-- The `ignoreUserCount` detail (lines 213-216), analogous with the
user thresholds and the bag's `user_count`. -/
def ignoreUserCountVal (user_count : Nat) (sn : GroupSnooze) : JVal :=
  if truthyN sn.user_count && !truthyN sn.user_window then
    JVal.num ((sn.user_count.getD 0 : Int) - ((user_count : Int) - (sn.state_users_seen : Int)))
  else optNum sn.user_count

/-- The dict `status_details.update({...})` writes for a valid snooze
(lines 205-224); `status_details` is empty at that point, so the update is
the dict literal itself. -/
def snoozeDetails (obj : Group) (attrs : GroupAttrs) (sn : GroupSnooze) :
    List (String × JVal) :=
  [("ignoreCount", ignoreCountVal obj.times_seen sn),
   ("ignoreUntil", optNum sn.until_ts),
   ("ignoreUserCount", ignoreUserCountVal attrs.user_count sn),
   ("ignoreUserWindow", optNum sn.user_window),
   ("ignoreWindow", optNum sn.window),
   ("actor", optJ attrs.ignore_actor)]

/-- The status after the snooze check (lines 199-226): an invalid snooze
forces `UNRESOLVED`, a valid one leaves the stored status. -/
def statusAfterSnooze (obj : Group) (attrs : GroupAttrs) : GroupStatus :=
  match attrs.ignore_until with
  | some sn => if sn.is_valid obj then obj.status else GroupStatus.unresolved
  | none => obj.status

/-- The status details after the snooze check. -/
def detailsAfterSnooze (obj : Group) (attrs : GroupAttrs) : List (String × JVal) :=
  match attrs.ignore_until with
  | some sn => if sn.is_valid obj then snoozeDetails obj attrs sn else []
  | none => []

/-- The auto-resolve condition (line 227):
`status == GroupStatus.UNRESOLVED and obj.is_over_resolve_age()`. -/
def autoResolveApplies (obj : Group) (attrs : GroupAttrs) : Bool :=
  decide (statusAfterSnooze obj attrs = GroupStatus.unresolved) && obj.is_over_resolve_age

/-- The status after the auto-resolve check (lines 227-229). -/
def statusAfterAuto (obj : Group) (attrs : GroupAttrs) : GroupStatus :=
  if autoResolveApplies obj attrs then GroupStatus.resolved
  else statusAfterSnooze obj attrs

/-- The status details after the auto-resolve check
(`status_details['autoResolved'] = True`). -/
def detailsAfterAuto (obj : Group) (attrs : GroupAttrs) : List (String × JVal) :=
  if autoResolveApplies obj attrs then
    dset (detailsAfterSnooze obj attrs) "autoResolved" (JVal.bool true)
  else detailsAfterSnooze obj attrs

/-- The status label chain (lines 230-246). -/
def statusLabel (obj : Group) (attrs : GroupAttrs) : String :=
  match statusAfterAuto obj attrs with
  | GroupStatus.resolved => "resolved"
  | GroupStatus.ignored => "ignored"
  | GroupStatus.pending_deletion => "pending_deletion"
  | GroupStatus.deletion_in_progress => "pending_deletion"
  | GroupStatus.pending_merge => "pending_merge"
  | GroupStatus.unresolved => "unresolved"

/-- The final status details: for a resolved status with a resolution
record, `inNextRelease` when the type is `in_next_release` or `None`,
`inRelease` when it is `in_release`, then the resolving actor
(lines 230-238). -/
def statusDetailsFinal (obj : Group) (attrs : GroupAttrs) : List (String × JVal) :=
  if statusAfterAuto obj attrs = GroupStatus.resolved then
    match attrs.resolution with
    | some (res_type, res_version, _) =>
      let d :=
        match res_type with
        | some ResolutionType.in_release =>
          dset (detailsAfterAuto obj attrs) "inRelease" (optStr res_version)
        | _ => dset (detailsAfterAuto obj attrs) "inNextRelease" (JVal.bool true)
      dset d "actor" (optJ attrs.resolution_actor)
    | none => detailsAfterAuto obj attrs
  else detailsAfterAuto obj attrs

/-- Modelled from the spec: the URL built by
`absolute_uri(reverse('sentry-group', args=[org.slug, project.slug, obj.id]))`
(both helpers live outside this file's sources); only that it is a
non-null string carrying the organization slug matters here. -/
def permalinkUri (orgSlug projSlug : String) (gid : Nat) : String :=
  orgSlug ++ "/" ++ projSlug ++ "/" ++ toString gid

/-- The permalink (lines 248-255): computed only for an authenticated
member of the group's owning organization, else `null`. -/
def permalinkVal (obj : Group) (user : SUser) : JVal :=
  if user.is_authenticated && user.org_ids.contains obj.organization.id then
    JVal.str (permalinkUri obj.organization.slug obj.project.slug obj.id)
  else JVal.null

/-- Modelled from the spec: the fixed level-name table `LOG_LEVELS` of
`sentry.constants` (outside this file's sources). -/
def LOG_LEVELS : List (Nat × String) :=
  [(10, "debug"), (20, "info"), (30, "warning"), (40, "error"), (50, "fatal")]

/-- The `level` entry: `LOG_LEVELS.get(obj.level, 'unknown')`. -/
def levelLabel (level : Nat) : String :=
  ((LOG_LEVELS.find? (fun p => p.1 == level)).map (fun p => p.2)).getD "unknown"

/-- The reason-name table `SUBSCRIPTION_REASON_MAP` (lines 24-30). -/
def SUBSCRIPTION_REASON_MAP : GroupSubscriptionReason → Option String
  | GroupSubscriptionReason.comment => some "commented"
  | GroupSubscriptionReason.assigned => some "assigned"
  | GroupSubscriptionReason.bookmark => some "bookmarked"
  | GroupSubscriptionReason.status_change => some "changed_status"
  | GroupSubscriptionReason.mentioned => some "mentioned"
  | GroupSubscriptionReason.unknown => none

/-- The `subscriptionDetails` entry (lines 286-291): a reason dict only
when subscribed and an explicit record exists, else `null`. -/
def subscriptionDetailsVal (sub : Bool × Option GroupSubscription) : JVal :=
  match sub with
  | (is_sub, some s) =>
    if is_sub then
      JVal.obj [("reason", JVal.str ((SUBSCRIPTION_REASON_MAP s.reason).getD "unknown"))]
    else JVal.null
  | (_, none) => JVal.null

/-- Embedding of `GroupSerializer.serialize(obj, attrs, user)`
(lines 198-294): the output record. -/
def GroupSerializer.serialize (obj : Group) (attrs : GroupAttrs) (user : SUser) :
    List (String × JVal) :=
  [("id", JVal.str (toString obj.id)),
   ("shareId", optStr attrs.share_id),
   ("shortId", JVal.str obj.qualified_short_id),
   ("count", JVal.str (toString obj.times_seen)),
   ("userCount", JVal.num (attrs.user_count : Int)),
   ("title", JVal.str obj.title),
   ("culprit", JVal.str obj.culprit),
   ("permalink", permalinkVal obj user),
   ("firstSeen", JVal.num (obj.first_seen : Int)),
   ("lastSeen", JVal.num (obj.last_seen : Int)),
   ("logger", if obj.logger = "" then JVal.null else JVal.str obj.logger),
   ("level", JVal.str (levelLabel obj.level)),
   ("status", JVal.str (statusLabel obj attrs)),
   ("statusDetails", JVal.obj (statusDetailsFinal obj attrs)),
   ("isPublic", JVal.bool attrs.share_id.isSome),
   ("project", JVal.obj [("name", JVal.str obj.project.name),
                         ("slug", JVal.str obj.project.slug)]),
   ("type", JVal.str obj.event_type),
   ("metadata", obj.event_metadata),
   ("numComments", JVal.num (obj.num_comments : Int)),
   ("assignedTo", attrs.assigned_to),
   ("isBookmarked", JVal.bool attrs.is_bookmarked),
   ("isSubscribed", JVal.bool attrs.subscription.1),
   ("subscriptionDetails", subscriptionDetailsVal attrs.subscription),
   ("hasSeen", JVal.bool attrs.has_seen),
   ("annotations", JVal.arr attrs.annotations)]

/-- Embedding of `SharedGroupSerializer.serialize` (lines 360-364): the
base record with `annotations` deleted. -/
def SharedGroupSerializer.serialize (obj : Group) (attrs : GroupAttrs) (user : SUser) :
    List (String × JVal) :=
  ddel (GroupSerializer.serialize obj attrs user) "annotations"

/-
Concrete sample data used to instantiate the theorems below.
-/

/-- A sample project row. -/
def sampleProject : Project := ⟨1, "Sample", "sample"⟩

/-- A sample organization row. -/
def sampleOrg : Organization := ⟨2, "acme"⟩

/-- A sample group: stored status `ignored`, seen 5 times. -/
def sampleGroup : Group :=
  ⟨7, sampleProject, sampleOrg, GroupStatus.ignored, 5, 0, 100, 200, none,
   "title", "culprit", "", 40, "SAMPLE-1", "error", JVal.null, false⟩

/-- A snooze row whose external validity check returns `false`. -/
def invalidSnooze : GroupSnooze :=
  ⟨none, some 10, none, none, none, 3, 0, none, fun _ => false⟩

/-- A snooze row whose external validity check returns `true`: bound 10,
no window, snapshot `times_seen = 3`. -/
def validSnooze : GroupSnooze :=
  ⟨none, some 10, none, none, none, 3, 0, none, fun _ => true⟩

/-- A sample authenticated user, member of `sampleOrg`. -/
def sampleUser : SUser := ⟨9, true, [2]⟩

/-- A sample attribute bag with every auxiliary lookup empty. -/
def baseAttrs : GroupAttrs :=
  ⟨JVal.null, false, (false, none), false, [], 0, none, none, none, none, none⟩

/-- The sample attribute bag carrying the invalid snooze. -/
def invalidSnoozeAttrs : GroupAttrs :=
  { baseAttrs with ignore_until := some invalidSnooze }

/-- The sample group, unresolved and past its auto-resolve window. -/
def agedGroup : Group :=
  { sampleGroup with status := GroupStatus.unresolved, is_over_resolve_age := true }

/-- A sample secret-typed plugin config field descriptor
(`{name: "api_key", type: "secret", has_saved_value: true}`). -/
def secretField : PluginField :=
  ⟨"api_key", none, some "secret", none, none, none, none, none, none, some true, none⟩

/-- A sample stored-option lookup holding a real secret. -/
def storedLookup : String → JVal := fun _ => JVal.str "hunter2"

/-- C6: for a plugin config field descriptor of type `secret`, the stored
option is never read (the output is the same under any stored-option
lookup), the entry carries `has_saved_value` (default `false`) and
`prefix` (default `""`), and its `value` key is not populated from
storage (it stays `null`). -/
theorem secret_field_redacted (f : PluginField) (go go' : String → JVal)
    (hsec : f.type = some "secret") :
    serialize_field go f = serialize_field go' f ∧
    dget (serialize_field go f) "has_saved_value" =
      some (JVal.bool (f.has_saved_value.getD false)) ∧
    dget (serialize_field go f) "prefix" =
      some (JVal.str (f.prefix_val.getD "")) ∧
    dget (serialize_field go f) "value" = some JVal.null := by
  unfold serialize_field
  rw [hsec]
  exact ⟨rfl, rfl, rfl, rfl⟩

theorem secret_field_redacted_witness :
    serialize_field storedLookup secretField =
      serialize_field (fun _ => JVal.null) secretField ∧
    dget (serialize_field storedLookup secretField) "has_saved_value" =
      some (JVal.bool (secretField.has_saved_value.getD false)) ∧
    dget (serialize_field storedLookup secretField) "prefix" =
      some (JVal.str (secretField.prefix_val.getD "")) ∧
    dget (serialize_field storedLookup secretField) "value" = some JVal.null :=
  secret_field_redacted secretField storedLookup (fun _ => JVal.null) rfl

/-- C9: a secret-typed field's serialized entry still contains a `value`
key, always `null`: the key is initialized to `None` for every field and
only overwritten with the stored option for non-secret fields. -/
theorem secret_field_has_null_value_key (f : PluginField) (go : String → JVal)
    (hsec : f.type = some "secret") :
    dget (serialize_field go f) "value" = some JVal.null ∧
    ∀ f' : PluginField, f'.type ≠ some "secret" →
      dget (serialize_field go f') "value" = some (go f'.name) := by
  constructor
  · unfold serialize_field
    rw [hsec]
    rfl
  · intro f' hns
    unfold serialize_field
    rw [if_neg hns]
    rfl

theorem secret_field_has_null_value_key_witness :
    dget (serialize_field storedLookup secretField) "value" = some JVal.null ∧
    ∀ f' : PluginField, f'.type ≠ some "secret" →
      dget (serialize_field storedLookup f') "value" =
        some (storedLookup f'.name) :=
  secret_field_has_null_value_key secretField storedLookup rfl

/-- C1: when a group's snooze fails its validity check, the effective
status is forced to `unresolved` before the label is chosen, so the
serialized `status` label is never `"ignored"`, even when the stored
status is `ignored`. -/
theorem snooze_invalid_never_ignored (obj : Group) (attrs : GroupAttrs)
    (user : SUser) (sn : GroupSnooze)
    (hsn : attrs.ignore_until = some sn)
    (hinv : sn.is_valid obj = false) :
    statusAfterSnooze obj attrs = GroupStatus.unresolved ∧
    statusLabel obj attrs ≠ "ignored" ∧
    dget (GroupSerializer.serialize obj attrs user) "status" ≠
      some (JVal.str "ignored") := by
  have h1 : statusAfterSnooze obj attrs = GroupStatus.unresolved := by
    simp [statusAfterSnooze, hsn, hinv]
  have h2 : statusLabel obj attrs ≠ "ignored" := by
    unfold statusLabel statusAfterAuto
    rcases Bool.eq_false_or_eq_true (autoResolveApplies obj attrs) with hb | hb <;>
      rw [hb] <;> simp [h1]
  refine ⟨h1, h2, ?_⟩
  have hd : dget (GroupSerializer.serialize obj attrs user) "status" =
      some (JVal.str (statusLabel obj attrs)) := rfl
  rw [hd]
  intro hcon
  apply h2
  simpa using hcon

theorem snooze_invalid_never_ignored_witness :
    statusAfterSnooze sampleGroup invalidSnoozeAttrs = GroupStatus.unresolved ∧
    statusLabel sampleGroup invalidSnoozeAttrs ≠ "ignored" ∧
    dget (GroupSerializer.serialize sampleGroup invalidSnoozeAttrs sampleUser)
        "status" ≠ some (JVal.str "ignored") :=
  snooze_invalid_never_ignored sampleGroup invalidSnoozeAttrs sampleUser
    invalidSnooze rfl rfl

/-- C4: when the effective status after the snooze check is `unresolved`
and the group is past its auto-resolve window, the serialized `status` is
`"resolved"` and `statusDetails.autoResolved` is `true`. -/
theorem auto_resolve_resolves (obj : Group) (attrs : GroupAttrs) (user : SUser)
    (hs : statusAfterSnooze obj attrs = GroupStatus.unresolved)
    (hage : obj.is_over_resolve_age = true) :
    statusLabel obj attrs = "resolved" ∧
    dget (GroupSerializer.serialize obj attrs user) "status" =
      some (JVal.str "resolved") ∧
    dget (GroupSerializer.serialize obj attrs user) "statusDetails" =
      some (JVal.obj (statusDetailsFinal obj attrs)) ∧
    dget (statusDetailsFinal obj attrs) "autoResolved" = some (JVal.bool true) := by
  have hauto : autoResolveApplies obj attrs = true := by
    simp [autoResolveApplies, hs, hage]
  have hstat : statusAfterAuto obj attrs = GroupStatus.resolved := by
    simp [statusAfterAuto, hauto]
  have hlabel : statusLabel obj attrs = "resolved" := by
    unfold statusLabel
    rw [hstat]
  have hdetail : dget (detailsAfterAuto obj attrs) "autoResolved" =
      some (JVal.bool true) := by
    unfold detailsAfterAuto
    rw [hauto, if_pos rfl, dget_dset, if_pos rfl]
  have hfinal : dget (statusDetailsFinal obj attrs) "autoResolved" =
      some (JVal.bool true) := by
    unfold statusDetailsFinal
    rw [if_pos hstat]
    cases hres : attrs.resolution with
    | none => exact hdetail
    | some r =>
      obtain ⟨res_type, res_version, res_actor⟩ := r
      cases res_type with
      | none =>
        rw [dget_dset, if_neg (by decide), dget_dset, if_neg (by decide)]
        exact hdetail
      | some t =>
        cases t with
        | in_next_release =>
          rw [dget_dset, if_neg (by decide), dget_dset, if_neg (by decide)]
          exact hdetail
        | in_release =>
          rw [dget_dset, if_neg (by decide), dget_dset, if_neg (by decide)]
          exact hdetail
  refine ⟨hlabel, ?_, rfl, hfinal⟩
  have hd : dget (GroupSerializer.serialize obj attrs user) "status" =
      some (JVal.str (statusLabel obj attrs)) := rfl
  rw [hd, hlabel]

theorem auto_resolve_resolves_witness :
    statusLabel agedGroup baseAttrs = "resolved" ∧
    dget (GroupSerializer.serialize agedGroup baseAttrs sampleUser) "status" =
      some (JVal.str "resolved") ∧
    dget (GroupSerializer.serialize agedGroup baseAttrs sampleUser) "statusDetails" =
      some (JVal.obj (statusDetailsFinal agedGroup baseAttrs)) ∧
    dget (statusDetailsFinal agedGroup baseAttrs) "autoResolved" =
      some (JVal.bool true) :=
  auto_resolve_resolves agedGroup baseAttrs sampleUser rfl rfl

/-- The sample attribute bag carrying the valid snooze. -/
def validSnoozeAttrs : GroupAttrs :=
  { baseAttrs with ignore_until := some validSnooze }

/-- A valid snooze row with a rolling window set (`window = 7`). -/
def windowSnooze : GroupSnooze :=
  ⟨none, some 10, some 7, none, none, 3, 0, none, fun _ => true⟩

/-- C5: for the sample group (`times_seen = 5`) under the valid snooze
(`count = 10`, no window, snapshot `times_seen = 3`), the serialized
`statusDetails.ignoreCount` is `10 - (5 - 3) = 8`; and whenever a rolling
window is set (a truthy `window`), the stored count is echoed unchanged
instead. -/
theorem ignore_count_scenario (obj : Group) (sn : GroupSnooze) (w : Nat)
    (hw : sn.window = some w) (hw0 : w ≠ 0) :
    ignoreCountVal sampleGroup.times_seen validSnooze = JVal.num 8 ∧
    dget (statusDetailsFinal sampleGroup validSnoozeAttrs) "ignoreCount" =
      some (JVal.num 8) ∧
    ignoreCountVal obj.times_seen sn = optNum sn.count := by
  refine ⟨rfl, rfl, ?_⟩
  have hwin : truthyN sn.window = true := by simp [truthyN, hw, hw0]
  unfold ignoreCountVal
  rw [hwin]
  simp

theorem ignore_count_scenario_witness :
    ignoreCountVal sampleGroup.times_seen validSnooze = JVal.num 8 ∧
    dget (statusDetailsFinal sampleGroup validSnoozeAttrs) "ignoreCount" =
      some (JVal.num 8) ∧
    ignoreCountVal sampleGroup.times_seen windowSnooze = optNum windowSnooze.count :=
  ignore_count_scenario sampleGroup windowSnooze 7 rfl (by decide)

/-- C7: the serialized `permalink` is non-null exactly when the user is
authenticated and a member of the group's owning organization; for an
unauthenticated user or a non-member it is `null`. -/
theorem permalink_members_only (obj : Group) (attrs : GroupAttrs) (user : SUser) :
    dget (GroupSerializer.serialize obj attrs user) "permalink" =
      some (permalinkVal obj user) ∧
    (permalinkVal obj user ≠ JVal.null ↔
      user.is_authenticated = true ∧ obj.organization.id ∈ user.org_ids) := by
  refine ⟨rfl, ?_⟩
  have hmem : user.org_ids.contains obj.organization.id = true ↔
      obj.organization.id ∈ user.org_ids := by
    unfold List.contains
    exact List.elem_iff
  unfold permalinkVal
  by_cases hb : (user.is_authenticated && user.org_ids.contains obj.organization.id) = true
  · rw [if_pos hb]
    rw [Bool.and_eq_true] at hb
    constructor
    · intro _
      exact ⟨hb.1, hmem.mp hb.2⟩
    · intro _ hcon
      exact JVal.noConfusion hcon
  · rw [if_neg hb]
    constructor
    · intro h
      exact absurd rfl h
    · rintro ⟨h1, h2⟩
      exact absurd (by rw [Bool.and_eq_true]; exact ⟨h1, hmem.mpr h2⟩) hb

/-- C8: the shared/public composer's record is the base composer's record
with the `annotations` key removed: the shared output never contains an
`annotations` key, and every other key holds the same value as in the
base output. -/
theorem shared_strips_annotations (obj : Group) (attrs : GroupAttrs) (user : SUser) :
    SharedGroupSerializer.serialize obj attrs user =
      ddel (GroupSerializer.serialize obj attrs user) "annotations" ∧
    dget (SharedGroupSerializer.serialize obj attrs user) "annotations" = none ∧
    ∀ k, k ≠ "annotations" →
      dget (SharedGroupSerializer.serialize obj attrs user) k =
        dget (GroupSerializer.serialize obj attrs user) k := by
  refine ⟨rfl, ?_, ?_⟩
  · unfold SharedGroupSerializer.serialize
    rw [dget_ddel, if_pos rfl]
  · intro k hk
    unfold SharedGroupSerializer.serialize
    rw [dget_ddel, if_neg hk]

/-- C2: for a group with no explicit subscription record, an effective
preference of `all_conversations` (project-specific row, else null-project
default, else the convention) yields `(true, none)` from the resolver, so
the serialized record has `isSubscribed = true` and
`subscriptionDetails = null`. -/
theorem all_conversations_implicit_subscription
    (item_list : List Group) (uid : Nat) (subs : List GroupSubscription)
    (opts : List UserOption) (g : Group) (attrs : GroupAttrs) (user : SUser)
    (hexp : explicitSub item_list uid subs g = none)
    (hpref : effectivePref item_list uid subs opts g = UserOptionValue.all_conversations)
    (hattrs : attrs.subscription = subscriptionFor item_list uid subs opts g) :
    subscriptionFor item_list uid subs opts g = (true, none) ∧
    dget (GroupSerializer.serialize g attrs user) "isSubscribed" =
      some (JVal.bool true) ∧
    dget (GroupSerializer.serialize g attrs user) "subscriptionDetails" =
      some JVal.null := by
  have hsub : subscriptionFor item_list uid subs opts g = (true, none) := by
    simp [subscriptionFor, hexp, hpref]
  refine ⟨hsub, ?_, ?_⟩
  · have hd : dget (GroupSerializer.serialize g attrs user) "isSubscribed" =
        some (JVal.bool attrs.subscription.1) := rfl
    rw [hd, hattrs, hsub]
  · have hd : dget (GroupSerializer.serialize g attrs user) "subscriptionDetails" =
        some (subscriptionDetailsVal attrs.subscription) := rfl
    rw [hd, hattrs, hsub]
    rfl

/-- The attribute bag whose `subscription` value comes from the resolver
run on the sample batch with no subscription rows and no preference rows. -/
def implicitSubAttrs : GroupAttrs :=
  { baseAttrs with subscription := subscriptionFor [sampleGroup] 9 [] [] sampleGroup }

theorem all_conversations_implicit_subscription_witness :
    subscriptionFor [sampleGroup] 9 [] [] sampleGroup = (true, none) ∧
    dget (GroupSerializer.serialize sampleGroup implicitSubAttrs sampleUser)
        "isSubscribed" = some (JVal.bool true) ∧
    dget (GroupSerializer.serialize sampleGroup implicitSubAttrs sampleUser)
        "subscriptionDetails" = some JVal.null :=
  all_conversations_implicit_subscription [sampleGroup] 9 [] [] sampleGroup
    implicitSubAttrs sampleUser rfl rfl rfl

/-- C3: for a group with an explicit subscription record whose
`is_active` is false, the resolver yields `(false, record)` whatever the
stored preference rows say (the fallback is not consulted), and the
serialized record has `isSubscribed = false`. -/
theorem explicit_inactive_not_subscribed
    (item_list : List Group) (uid : Nat) (subs : List GroupSubscription)
    (opts : List UserOption) (g : Group) (attrs : GroupAttrs) (user : SUser)
    (s : GroupSubscription)
    (hexp : explicitSub item_list uid subs g = some s)
    (hact : s.is_active = false)
    (hattrs : attrs.subscription = subscriptionFor item_list uid subs opts g) :
    subscriptionFor item_list uid subs opts g = (false, some s) ∧
    (∀ opts' : List UserOption,
      subscriptionFor item_list uid subs opts' g = (false, some s)) ∧
    dget (GroupSerializer.serialize g attrs user) "isSubscribed" =
      some (JVal.bool false) := by
  have hall : ∀ opts' : List UserOption,
      subscriptionFor item_list uid subs opts' g = (false, some s) := by
    intro opts'
    simp [subscriptionFor, hexp, hact]
  refine ⟨hall opts, hall, ?_⟩
  have hd : dget (GroupSerializer.serialize g attrs user) "isSubscribed" =
      some (JVal.bool attrs.subscription.1) := rfl
  rw [hd, hattrs, hall opts]

/-- An explicit inactive subscription row of the sample user for the
sample group. -/
def inactiveSub : GroupSubscription := ⟨7, 9, false, GroupSubscriptionReason.comment⟩

/-- A stored null-project `all_conversations` preference row of the
sample user. -/
def allConvOpts : List UserOption :=
  [⟨9, none, "workflow:notifications", "all_conversations"⟩]

/-- The attribute bag whose `subscription` value comes from the resolver
run with the inactive explicit row and the `all_conversations` default. -/
def inactiveSubAttrs : GroupAttrs :=
  { baseAttrs with
    subscription := subscriptionFor [sampleGroup] 9 [inactiveSub] allConvOpts sampleGroup }

theorem explicit_inactive_not_subscribed_witness :
    subscriptionFor [sampleGroup] 9 [inactiveSub] allConvOpts sampleGroup =
      (false, some inactiveSub) ∧
    (∀ opts' : List UserOption,
      subscriptionFor [sampleGroup] 9 [inactiveSub] opts' sampleGroup =
        (false, some inactiveSub)) ∧
    dget (GroupSerializer.serialize sampleGroup inactiveSubAttrs sampleUser)
        "isSubscribed" = some (JVal.bool false) :=
  explicit_inactive_not_subscribed [sampleGroup] 9 [inactiveSub] allConvOpts
    sampleGroup inactiveSubAttrs sampleUser inactiveSub rfl rfl rfl

/-- Helper: the last element of a list, when there is one, is a member. -/
theorem mem_of_getLast?_eq {α : Type} {l : List α} {a : α}
    (h : l.getLast? = some a) : a ∈ l := by
  obtain ⟨hne, hx⟩ := List.mem_getLast?_eq_getLast (Option.mem_def.mpr h)
  rw [hx]
  exact List.getLast_mem hne

/-- Helper: an entry of the `actors` dict comes from an active user row
of the database. -/
theorem lookupLast_actorsOf_active
    (resolutions : List (Nat × ResTuple)) (ignore_items : List (Nat × GroupSnooze))
    (dbUsers : List DbUser) (b : Nat) (w : JVal)
    (h : lookupLast (actorsOf resolutions ignore_items dbUsers) b = some w) :
    ∃ u ∈ dbUsers, u.id = b ∧ u.is_active = true := by
  unfold lookupLast at h
  rcases Option.map_eq_some'.mp h with ⟨q, hq, -⟩
  have hqmem := mem_of_getLast?_eq hq
  rw [List.mem_filter] at hqmem
  obtain ⟨hmem, hbq⟩ := hqmem
  unfold actorsOf at hmem
  rw [List.mem_map] at hmem
  obtain ⟨u, humem, hu⟩ := hmem
  unfold activeActorUsers at humem
  rw [List.mem_filter] at humem
  obtain ⟨hudb, hcond⟩ := humem
  rw [Bool.and_eq_true] at hcond
  refine ⟨u, hudb, ?_, hcond.2⟩
  have hq1 : q.1 = b := by simpa using hbq
  rw [← hu] at hq1
  exact hq1

/-- C10: the serialized actor attached for a resolution or snooze is
present only when the referenced user exists in the database and is
active; an inactive or missing actor user yields an absent actor (and no
error), for both the snooze and the resolution paths. -/
theorem actor_attached_only_when_active
    (resolutions : List (Nat × ResTuple)) (ignore_items : List (Nat × GroupSnooze))
    (dbUsers : List DbUser) (a : Nat)
    (hmiss : ∀ u ∈ dbUsers, u.id = a → u.is_active = false) :
    lookupLast (actorsOf resolutions ignore_items dbUsers) a = none ∧
    (∀ gid it, lookupLast ignore_items gid = some it → it.actor_id = some a →
      ignore_actor_for resolutions ignore_items dbUsers gid = none) ∧
    (∀ gid t v, lookupLast resolutions gid = some (t, v, some a) →
      resolution_actor_for resolutions ignore_items dbUsers gid = none) ∧
    (∀ b w, lookupLast (actorsOf resolutions ignore_items dbUsers) b = some w →
      ∃ u ∈ dbUsers, u.id = b ∧ u.is_active = true) := by
  have hnone : lookupLast (actorsOf resolutions ignore_items dbUsers) a = none := by
    cases hl : lookupLast (actorsOf resolutions ignore_items dbUsers) a with
    | none => rfl
    | some w =>
      obtain ⟨u, humem, hid, hact⟩ :=
        lookupLast_actorsOf_active resolutions ignore_items dbUsers a w hl
      rw [hmiss u humem hid] at hact
      exact Bool.noConfusion hact
  refine ⟨hnone, ?_, ?_,
    fun b w h => lookupLast_actorsOf_active resolutions ignore_items dbUsers b w h⟩
  · intro gid it hit ha
    simp [ignore_actor_for, hit, ha, hnone]
  · intro gid t v hres
    simp [resolution_actor_for, hres, hnone]

/-- A snooze row issued by actor 4. -/
def actorSnooze : GroupSnooze :=
  ⟨none, none, none, none, none, 0, 0, some 4, fun _ => true⟩

/-- A resolution map referencing actor 4 for group 7. -/
def sampleResolutions : List (Nat × ResTuple) := [(7, (none, none, some 4))]

/-- A snooze map referencing actor 4 for group 7. -/
def sampleIgnoreItems : List (Nat × GroupSnooze) := [(7, actorSnooze)]

/-- A user table where user 4 exists but is inactive. -/
def inactiveUsers : List DbUser := [⟨4, false⟩]

theorem actor_attached_only_when_active_witness :
    lookupLast (actorsOf sampleResolutions sampleIgnoreItems inactiveUsers) 4 = none ∧
    (∀ gid it, lookupLast sampleIgnoreItems gid = some it → it.actor_id = some 4 →
      ignore_actor_for sampleResolutions sampleIgnoreItems inactiveUsers gid = none) ∧
    (∀ gid t v, lookupLast sampleResolutions gid = some (t, v, some 4) →
      resolution_actor_for sampleResolutions sampleIgnoreItems inactiveUsers gid = none) ∧
    (∀ b w, lookupLast (actorsOf sampleResolutions sampleIgnoreItems inactiveUsers) b =
        some w → ∃ u ∈ inactiveUsers, u.id = b ∧ u.is_active = true) :=
  actor_attached_only_when_active sampleResolutions sampleIgnoreItems inactiveUsers 4
    (by decide)

end Sentry
